import Mathlib

/-! Shallow embedding of the velixar-mcp-server request dispatcher
(src/index.js): the data model of decoded API responses, the transmitted
request bodies, the text rendering of each tool result, the recall
resource handlers, and the error-catching dispatch boundary. -/

namespace Velixar

/-- A memory object as decoded from the remote API JSON. Numeric JSON
fields (tier, score) are modelled as integers; absent JSON fields as
`none`. -/
structure Memory where
  id : Option String := none
  content : String := ""
  tags : Option (List String) := none
  tier : Option Int := none
  score : Option Int := none
deriving Repr, DecidableEq

/-- The decoded JSON body of an API response (`result` in index.js). -/
structure ApiResult where
  error : Option String := none
  id : Option String := none
  memories : Option (List Memory) := none
  count : Option Int := none
  cursor : Option String := none
deriving Repr, DecidableEq

/-- An HTTP response: `ok` is `res.ok`, `status` is `res.status`, and
`result` is the decoded JSON body; the raw body text is taken to be its
serialization (`serializeApiResult`). -/
structure HttpResponse where
  ok : Bool
  status : Nat
  result : ApiResult
deriving Repr, DecidableEq

/-- Outcome of one `fetch` call: either a transport-level failure
(rejected promise) or an HTTP response. -/
inductive HttpOutcome where
  | netFailure (msg : String)
  | response (r : HttpResponse)
deriving Repr, DecidableEq

/-- The untyped `arguments` object of a tool invocation: every field
optional, mirroring the unvalidated JS object. -/
structure ToolArgs where
  content : Option String := none
  tags : Option (List String) := none
  tier : Option Int := none
  query : Option String := none
  limit : Option Int := none
  id : Option String := none
  cursor : Option String := none
deriving Repr, DecidableEq

/-- A tool-call result: one text payload plus the error flag. -/
structure ToolResult where
  text : String
  isError : Bool := false
deriving Repr, DecidableEq

/-- JS truthiness of a possibly-absent string: `undefined` and the empty
string are falsy. -/
def jsTruthyStr : Option String → Bool
  | none => false
  | some s => if s = "" then false else true

/-- JS truthiness of a possibly-absent number: `undefined` and 0 are
falsy. -/
def jsTruthyInt : Option Int → Bool
  | none => false
  | some n => if n = 0 then false else true

/-- JS template interpolation of a possibly-absent string: `undefined`
prints as "undefined". -/
def jsShowOpt : Option String → String
  | none => "undefined"
  | some s => s

/-- JS template interpolation of a possibly-absent number. -/
def jsShowInt : Option Int → String
  | none => "undefined"
  | some n => toString n

/-- JS `s.slice(0, n)` and `s.substring(0, n)`. -/
def jsSlice (s : String) (n : Nat) : String := ⟨s.data.take n⟩

/-- JSON string escaping of one character (quote, backslash, newline). -/
def escChar (c : Char) : List Char :=
  if c = '"' then ['\\', '"']
  else if c = '\\' then ['\\', '\\']
  else if c = '\n' then ['\\', 'n']
  else [c]

/-- JSON string escaping of a character list. -/
def jsonEscapeList : List Char → List Char
  | [] => []
  | c :: cs => escChar c ++ jsonEscapeList cs

/-- A JSON string literal. -/
def jsonStr (s : String) : String := "\"" ++ ⟨jsonEscapeList s.data⟩ ++ "\""

/-- A JSON array of string literals. -/
def jsonStrArray (l : List String) : String :=
  "[" ++ String.intercalate "," (l.map jsonStr) ++ "]"

/-- Canonical JSON serialization of a memory object (present fields
only, in declaration order). -/
def serializeMemory (m : Memory) : String :=
  "\x7b" ++ String.intercalate ","
    ((match m.id with | some i => ["\"id\":" ++ jsonStr i] | none => []) ++
     ["\"content\":" ++ jsonStr m.content] ++
     (match m.tags with | some t => ["\"tags\":" ++ jsonStrArray t] | none => []) ++
     (match m.tier with | some t => ["\"tier\":" ++ toString t] | none => []) ++
     (match m.score with | some s => ["\"score\":" ++ toString s] | none => [])) ++ "\x7d"

/-- Canonical JSON serialization of an API response body: the raw text
that `res.text()` yields for a body decoding to `r`. -/
def serializeApiResult (r : ApiResult) : String :=
  "\x7b" ++ String.intercalate ","
    ((match r.error with | some e => ["\"error\":" ++ jsonStr e] | none => []) ++
     (match r.id with | some i => ["\"id\":" ++ jsonStr i] | none => []) ++
     (match r.memories with
      | some ms => ["\"memories\":[" ++ String.intercalate "," (ms.map serializeMemory) ++ "]"]
      | none => []) ++
     (match r.count with | some c => ["\"count\":" ++ toString c] | none => []) ++
     (match r.cursor with | some c => ["\"cursor\":" ++ jsonStr c] | none => [])) ++ "\x7d"

/-- The error message thrown by `apiRequest` on a non-success status:
`API <status>: <first 200 chars of the body>` (index.js lines 36-38). -/
def httpFailMsg (r : HttpResponse) : String :=
  "API " ++ toString r.status ++ ": " ++ jsSlice (serializeApiResult r.result) 200

/-- `apiRequest` (index.js lines 23-47): a transport failure is
rethrown, a non-success status throws the status-and-truncated-body
message, a success returns the decoded JSON.  `Except.error` models a
thrown JS error. -/
def apiRequest : HttpOutcome → Except String ApiResult
  | .netFailure m => .error m
  | .response r => if r.ok then .ok r.result else .error (httpFailMsg r)

/-- The POST body transmitted by the `velixar_store` branch (index.js
lines 176-181): `tier` via nullish coalescing (`?? 2`), `tags` via
`|| []`; `JSON.stringify` drops an undefined `content`. -/
structure StoreBody where
  content : Option String
  user_id : String
  tier : Int
  tags : List String
deriving Repr, DecidableEq

/-- Builds the `velixar_store` POST body from the invocation args. -/
def storeBody (userId : String) (args : ToolArgs) : StoreBody :=
  { content := args.content
    user_id := userId
    tier := args.tier.getD 2
    tags := args.tags.getD [] }

/-- The PATCH body transmitted by the `velixar_update` branch (index.js
lines 229-231): `user_id` always; `content` only when truthy; `tags`
whenever supplied (JS arrays are truthy even when empty). -/
structure UpdateBody where
  user_id : String
  content : Option String := none
  tags : Option (List String) := none
deriving Repr, DecidableEq

/-- Builds the `velixar_update` PATCH body from the invocation args. -/
def updateBody (userId : String) (args : ToolArgs) : UpdateBody :=
  { user_id := userId
    content := if jsTruthyStr args.content then args.content else none
    tags := args.tags }

/-- ` (score: N)` suffix of a search result line; JS truthiness hides a
zero score (index.js line 198). -/
def scoreSuffix (s : Option Int) : String :=
  if jsTruthyInt s then " (score: " ++ jsShowInt s ++ ")" else ""

/-- One search result line (index.js lines 197-199). -/
def renderSearchMemory (m : Memory) : String :=
  "• " ++ m.content ++ scoreSuffix m.score

/-- The itemized search result list. -/
def renderSearchMemories (ms : List Memory) : String :=
  String.intercalate "\n" (ms.map renderSearchMemory)

/-- ` [a, b]` tag suffix, shown only for a present non-empty tag list
(index.js lines 88 and 220). -/
def tagsSuffix : Option (List String) → String
  | none => ""
  | some l => if l = [] then "" else " [" ++ String.intercalate ", " l ++ "]"

/-- Content preview truncated to 120 characters with an ellipsis
(index.js line 221). -/
def previewContent (c : String) : String :=
  if c.length > 120 then jsSlice c 120 ++ "…" else c

/-- One list result line (index.js lines 219-223). -/
def renderListMemory (m : Memory) : String :=
  "• " ++ jsShowOpt m.id ++ ": " ++ previewContent m.content ++ tagsSuffix m.tags

/-- The itemized list rendering. -/
def renderListMemories (ms : List Memory) : String :=
  String.intercalate "\n" (ms.map renderListMemory)

/-- The `\nNext cursor: tok` fragment, inserted only for a truthy
cursor (index.js line 224). -/
def cursorSuffix (c : Option String) : String :=
  if jsTruthyStr c then "\nNext cursor: " ++ jsShowOpt c else ""

/-- The `N memories:` leading count of the list rendering (index.js
line 225). -/
def countPrefix (c : Option Int) : String := jsShowInt c ++ " memories:"

/-- ` (tier N)` suffix of the recall rendering: shown whenever tier is
present, including tier 0 (`m.tier != null`, index.js line 89). -/
def tierSuffix : Option Int → String
  | none => ""
  | some t => " (tier " ++ toString t ++ ")"

/-- One recall-resource line (index.js lines 87-90). -/
def renderRecallMemory (m : Memory) : String :=
  m.content ++ tagsSuffix m.tags ++ tierSuffix m.tier

/-- The recall-resource text, lines joined by a separator (index.js
line 91). -/
def renderRecallMemories (ms : List Memory) : String :=
  String.intercalate "\n---\n" (ms.map renderRecallMemory)

/-- JS truthiness of `result.memories?.length` (index.js lines 194 and
216): falsy for an absent or empty collection. -/
def jsLengthTruthy : Option (List Memory) → Bool
  | none => false
  | some ms => if ms = [] then false else true

/-- Decidable substring containment over the character sequence: the
spec-side reading of "the text contains ...". -/
def StrContains (s sub : String) : Prop := sub.data <:+: s.data

instance (s sub : String) : Decidable (StrContains s sub) :=
  List.decidableInfix sub.data s.data

/-- `String.prototype.includes`, Boolean (code side). -/
def jsIncludes (s sub : String) : Bool := decide (sub.data <:+: s.data)

/-- The unknown-tool message (index.js lines 240-246). -/
def unknownToolText (name : String) : String :=
  "Unknown tool: " ++ name ++
    "\n\nNote: Velixar MCP tools are only available in the primary agent context. If you\x27re seeing this in a subagent, memory operations must be handled by the primary agent."

/-- The help note appended to caught-error texts that mention "tool" or
"not found" (index.js lines 248-250). -/
def helpNote (msg : String) : String :=
  if jsIncludes msg "tool" || jsIncludes msg "not found" then
    "\n\nNote: Velixar MCP tools are only available in the primary agent context. If you\x27re using subagents, handle memory operations in the primary agent before/after delegating other tasks."
  else ""

/-- The body of the CallTool handler try block (index.js lines
172-246): one branch per tool, dispatched on the tool name;
`Except.error` models a thrown JS error. -/
def dispatchBody (name : String) (args : ToolArgs) (outcome : HttpOutcome) :
    Except String ToolResult :=
  if name = "velixar_store" then
    match apiRequest outcome with
    | .error e => .error e
    | .ok result =>
      if jsTruthyStr result.error then .error (result.error.getD "")
      else if jsTruthyStr result.id then
        .ok ⟨"✓ Stored memory (id: " ++ jsShowOpt result.id ++ ")", false⟩
      else .error "Store succeeded but no ID returned"
  else if name = "velixar_search" then
    match apiRequest outcome with
    | .error e => .error e
    | .ok result =>
      if jsTruthyStr result.error then .error (result.error.getD "")
      else if jsLengthTruthy result.memories then
        .ok ⟨"Found " ++ jsShowInt result.count ++ " memories:\n" ++
              renderSearchMemories (result.memories.getD []), false⟩
      else .ok ⟨"No memories found.", false⟩
  else if name = "velixar_delete" then
    match apiRequest outcome with
    | .error e => .error e
    | .ok result =>
      if jsTruthyStr result.error then .error (result.error.getD "")
      else .ok ⟨"✓ Deleted memory: " ++ jsShowOpt args.id, false⟩
  else if name = "velixar_list" then
    match apiRequest outcome with
    | .error e => .error e
    | .ok result =>
      if jsTruthyStr result.error then .error (result.error.getD "")
      else if jsLengthTruthy result.memories then
        .ok ⟨countPrefix result.count ++ cursorSuffix result.cursor ++ "\n" ++
              renderListMemories (result.memories.getD []), false⟩
      else .ok ⟨"No memories found.", false⟩
  else if name = "velixar_update" then
    match apiRequest outcome with
    | .error e => .error e
    | .ok result =>
      if jsTruthyStr result.error then .error (result.error.getD "")
      else .ok ⟨"✓ Updated memory: " ++ jsShowOpt args.id, false⟩
  else .ok ⟨unknownToolText name, true⟩

/-- The whole CallTool handler (index.js lines 169-259): the catch
clause turns any thrown error into a flagged `Error: ...` text
result. -/
def handleToolCall (name : String) (args : ToolArgs) (outcome : HttpOutcome) :
    ToolResult :=
  match dispatchBody name args outcome with
  | .ok r => r
  | .error e => ⟨"Error: " ++ e ++ helpNote e, true⟩

/-- Configuration relevant to the recall feature. -/
structure Config where
  autoRecall : Bool
deriving Repr, DecidableEq

/-- `fetchRecall` (index.js lines 58-67) as a slot transformer: with
auto-recall disabled the slot is left untouched; otherwise a successful
fetch stores `result.memories || []` and any failure stores `[]`. -/
def fetchRecall (cfg : Config) (outcome : HttpOutcome)
    (slot : Option (List Memory)) : Option (List Memory) :=
  if cfg.autoRecall then
    match apiRequest outcome with
    | .ok result => some (result.memories.getD [])
    | .error _ => some []
  else slot

/-- The synthetic recall resource URI. -/
def recentUri : String := "velixar://memories/recent"

/-- The ReadResource handler (index.js lines 84-101): on the
recent-memories URI an unpopulated slot triggers an on-demand fetch,
the snapshot is rendered, and an empty text falls back to the
placeholder; any other URI throws. Returns the text together with the
slot after the read. -/
def readResource (cfg : Config) (slot : Option (List Memory)) (uri : String)
    (outcome : HttpOutcome) : Except String (String × Option (List Memory)) :=
  if uri = recentUri then
    let slot2 := match slot with
      | none => fetchRecall cfg outcome none
      | some l => some l
    let text := renderRecallMemories (slot2.getD [])
    .ok (if text = "" then "No memories found." else text, slot2)
  else .error ("Unknown resource: " ++ uri)

/-- The ListResources handler (index.js lines 72-82): the
recent-memories resource is advertised only when auto-recall is on and
the snapshot is populated and non-empty. -/
def listResources (cfg : Config) (slot : Option (List Memory)) : List String :=
  if cfg.autoRecall then
    match slot with
    | some ms => if ms = [] then [] else [recentUri]
    | none => []
  else []

/-- Appending strings concatenates their character data. -/
theorem data_append (s t : String) : (s ++ t).data = s.data ++ t.data := rfl

/-- Substring containment from an explicit decomposition of the
character data. -/
theorem strContains_intro (s mid : String) (l₁ l₂ : List Char)
    (h : s.data = l₁ ++ mid.data ++ l₂) : StrContains s mid :=
  ⟨l₁, l₂, h.symm⟩

/-- A thrown dispatch error is rendered by the catch clause as a
flagged textual result. -/
theorem handle_of_dispatch_error {n : String} {a : ToolArgs} {o : HttpOutcome}
    {e : String} (h : dispatchBody n a o = .error e) :
    handleToolCall n a o = ⟨"Error: " ++ e ++ helpNote e, true⟩ := by
  simp [handleToolCall, h]

/-- A normally-returned dispatch result passes through the boundary
unchanged. -/
theorem handle_of_dispatch_ok {n : String} {a : ToolArgs} {o : HttpOutcome}
    {r : ToolResult} (h : dispatchBody n a o = .ok r) :
    handleToolCall n a o = r := by
  simp [handleToolCall, h]

/-- A caught-error text contains the thrown message. -/
theorem strContains_errorText (e : String) :
    StrContains ("Error: " ++ e ++ helpNote e) e :=
  strContains_intro _ _ "Error: ".data (helpNote e).data (by simp [data_append])

/-- On a non-success status every tool branch throws the HTTP failure
message. -/
theorem dispatch_httpFail (name : String) (a : ToolArgs) (r : HttpResponse)
    (hname : name = "velixar_store" ∨ name = "velixar_search" ∨
      name = "velixar_delete" ∨ name = "velixar_list" ∨ name = "velixar_update")
    (hok : r.ok = false) :
    dispatchBody name a (.response r) = .error (httpFailMsg r) := by
  rcases hname with h | h | h | h | h <;> subst h <;>
    simp [dispatchBody, apiRequest, hok]

/-- On a success status with a truthy error field every tool branch
throws that error. -/
theorem dispatch_truthy_error (name : String) (a : ToolArgs) (r : HttpResponse)
    (hname : name = "velixar_store" ∨ name = "velixar_search" ∨
      name = "velixar_delete" ∨ name = "velixar_list" ∨ name = "velixar_update")
    (hok : r.ok = true) (htr : jsTruthyStr r.result.error = true) :
    dispatchBody name a (.response r) = .error (r.result.error.getD "") := by
  rcases hname with h | h | h | h | h <;> subst h <;>
    simp [dispatchBody, apiRequest, hok, htr]

/-- C1: a store invocation whose arguments omit the tier transmits
tier 2, and an explicit tier of 0 is transmitted as 0 — the nullish
coalescing `?? 2` does not coerce a falsy 0 to the default. -/
theorem store_tier_default_and_zero (userId : String) (args : ToolArgs) :
    (args.tier = none → (storeBody userId args).tier = 2) ∧
    (args.tier = some 0 → (storeBody userId args).tier = 0) := by
  constructor <;> intro h <;> simp [storeBody, h]

theorem store_tier_default_and_zero_witness :
    (storeBody "mcp-user" { content := some "db region note" }).tier = 2 ∧
    (storeBody "mcp-user" { content := some "db region note", tier := some 0 }).tier = 0 :=
  ⟨(store_tier_default_and_zero "mcp-user" _).1 rfl,
   (store_tier_default_and_zero "mcp-user" _).2 rfl⟩

/-- C2, counterexample to the claim as stated: a non-success-status
response whose decoded body carries the error message `a"b` yields a
flagged result whose text (status code plus the JSON-escaped raw body
prefix) does not contain that message; and a success-status response
carrying the falsy error field `""` alongside an id is not flagged at
all. -/
theorem error_field_flagged_cex :
    (HttpResponse.mk false 400 { error := some "a\"b" }).result.error = some "a\"b" ∧
    (handleToolCall "velixar_store" {}
        (.response (HttpResponse.mk false 400 { error := some "a\"b" }))).isError = true ∧
    ¬ StrContains (handleToolCall "velixar_store" {}
        (.response (HttpResponse.mk false 400 { error := some "a\"b" }))).text "a\"b" ∧
    (HttpResponse.mk true 200 { error := some "", id := some "m1" }).result.error = some "" ∧
    (handleToolCall "velixar_store" {}
        (.response (HttpResponse.mk true 200 { error := some "", id := some "m1" }))).isError
      = false := by
  decide

/-- C2 (amended): for each of the five tools, a response whose decoded
body carries a non-empty error message always yields a flagged error
result; when the HTTP status is a success the result text moreover
contains that message (on a non-success status the text carries the
status code and truncated raw body instead, which need not contain
it). -/
theorem error_field_flagged (name : String) (a : ToolArgs) (r : HttpResponse)
    (e : String)
    (hname : name = "velixar_store" ∨ name = "velixar_search" ∨
      name = "velixar_delete" ∨ name = "velixar_list" ∨ name = "velixar_update")
    (he : r.result.error = some e) (hne : e ≠ "") :
    (handleToolCall name a (.response r)).isError = true ∧
    (r.ok = true → StrContains (handleToolCall name a (.response r)).text e) := by
  cases hok : r.ok with
  | false =>
    rw [handle_of_dispatch_error (dispatch_httpFail name a r hname hok)]
    exact ⟨rfl, fun h => absurd h Bool.false_ne_true⟩
  | true =>
    have htr : jsTruthyStr r.result.error = true := by
      rw [he]; simp [jsTruthyStr, hne]
    have hd : dispatchBody name a (.response r) = .error e := by
      rw [dispatch_truthy_error name a r hname hok htr, he]
      rfl
    rw [handle_of_dispatch_error hd]
    exact ⟨rfl, fun _ => strContains_errorText e⟩

theorem error_field_flagged_witness :
    (handleToolCall "velixar_store" {}
        (.response (HttpResponse.mk true 200 { error := some "boom" }))).isError = true ∧
    ((HttpResponse.mk true 200 { error := some "boom" }).ok = true →
      StrContains (handleToolCall "velixar_store" {}
        (.response (HttpResponse.mk true 200 { error := some "boom" }))).text "boom") :=
  error_field_flagged "velixar_store" {} (HttpResponse.mk true 200 { error := some "boom" })
    "boom" (Or.inl rfl) rfl (by decide)

/-- C3: the dispatch boundary never propagates a thrown error: any
thrown error becomes a normally-returned flagged `Error: ...` text
result, a normal result passes through unchanged, and an unknown tool
name yields the flagged unknown-tool text rather than a fault. -/
theorem tool_call_boundary (name : String) (a : ToolArgs) (o : HttpOutcome) :
    (∀ e, dispatchBody name a o = Except.error e →
      handleToolCall name a o = ⟨"Error: " ++ e ++ helpNote e, true⟩) ∧
    (∀ r, dispatchBody name a o = Except.ok r → handleToolCall name a o = r) ∧
    (name ≠ "velixar_store" → name ≠ "velixar_search" → name ≠ "velixar_delete" →
      name ≠ "velixar_list" → name ≠ "velixar_update" →
      handleToolCall name a o = ⟨unknownToolText name, true⟩) := by
  refine ⟨fun e h => handle_of_dispatch_error h, fun r h => handle_of_dispatch_ok h, ?_⟩
  intro h1 h2 h3 h4 h5
  exact handle_of_dispatch_ok (by simp [dispatchBody, h1, h2, h3, h4, h5])

theorem tool_call_boundary_witness :
    handleToolCall "nope" {} (.netFailure "x") = ⟨unknownToolText "nope", true⟩ :=
  (tool_call_boundary "nope" {} (.netFailure "x")).2.2 (by decide) (by decide)
    (by decide) (by decide) (by decide)

/-- C4: the update PATCH body carries the user scope and only the
supplied fields: an omitted content or tags never appears in the body,
and any field present in the body was supplied with that exact
value. -/
theorem update_body_only_supplied (userId : String) (args : ToolArgs) :
    (updateBody userId args).user_id = userId ∧
    (args.content = none → (updateBody userId args).content = none) ∧
    (args.tags = none → (updateBody userId args).tags = none) ∧
    (∀ c, (updateBody userId args).content = some c → args.content = some c) ∧
    (∀ t, (updateBody userId args).tags = some t → args.tags = some t) := by
  refine ⟨rfl, ?_, ?_, ?_, ?_⟩
  · intro h; simp [updateBody, h, jsTruthyStr]
  · intro h; simp [updateBody, h]
  · intro c h
    cases htr : jsTruthyStr args.content with
    | false => simp [updateBody, htr] at h
    | true => simpa [updateBody, htr] using h
  · intro t h; simpa [updateBody] using h

theorem update_body_only_supplied_witness :
    (updateBody "mcp-user" { id := some "m1" }).content = none ∧
    (updateBody "mcp-user" { id := some "m1" }).tags = none :=
  ⟨(update_body_only_supplied "mcp-user" _).2.1 rfl,
   (update_body_only_supplied "mcp-user" _).2.2.1 rfl⟩

/-- C5, counterexample to the claim as stated: a response with a cursor
but an empty memories collection renders the placeholder with no
next-cursor line at all; a response with no cursor can still show such
a line when a memory content embeds one; and an empty-string cursor is
falsy and produces no line. -/
theorem list_cursor_line_cex :
    (HttpResponse.mk true 200
        { memories := some [], count := some 0, cursor := some "tok0" }).result.cursor
      = some "tok0" ∧
    ¬ StrContains (handleToolCall "velixar_list" {}
        (.response (HttpResponse.mk true 200
          { memories := some [], count := some 0, cursor := some "tok0" }))).text
      ("\nNext cursor: " ++ "tok0") ∧
    (HttpResponse.mk true 200
        { memories := some [⟨some "m1", "x\nNext cursor: evil", none, none, none⟩],
          count := some 1, cursor := none }).result.cursor = none ∧
    StrContains (handleToolCall "velixar_list" {}
        (.response (HttpResponse.mk true 200
          { memories := some [⟨some "m1", "x\nNext cursor: evil", none, none, none⟩],
            count := some 1, cursor := none }))).text "\nNext cursor: " ∧
    ¬ StrContains (handleToolCall "velixar_list" {}
        (.response (HttpResponse.mk true 200
          { memories := some [⟨some "m1", "hello", none, none, none⟩],
            count := some 1, cursor := some "" }))).text "\nNext cursor: " := by
  decide

/-- C5 (amended): for a successful list response with a non-empty
cursor token and a non-empty memories collection, the rendered text
contains a next-cursor line — newline, `Next cursor: `, then the exact
token — placed right after the leading count; with a falsy (absent or
empty) cursor the rendering inserts no next-cursor fragment: the text
is exactly the count line followed by the memory lines (such a line
can then only come from memory data itself). -/
theorem list_cursor_line (a : ToolArgs) (r : HttpResponse) (m : Memory)
    (ms : List Memory) (hok : r.ok = true)
    (herr : jsTruthyStr r.result.error = false)
    (hmem : r.result.memories = some (m :: ms)) :
    (∀ tok, r.result.cursor = some tok → tok ≠ "" →
      StrContains (handleToolCall "velixar_list" a (.response r)).text
        ("\nNext cursor: " ++ tok)) ∧
    (jsTruthyStr r.result.cursor = false →
      handleToolCall "velixar_list" a (.response r) =
        ⟨countPrefix r.result.count ++ "\n" ++ renderListMemories (m :: ms), false⟩) := by
  have hd : dispatchBody "velixar_list" a (.response r) =
      .ok ⟨countPrefix r.result.count ++ cursorSuffix r.result.cursor ++ "\n" ++
            renderListMemories (m :: ms), false⟩ := by
    simp [dispatchBody, apiRequest, hok, herr, hmem, jsLengthTruthy]
  have hh := handle_of_dispatch_ok hd
  constructor
  · intro tok htok hne
    rw [hh]
    have hcs : cursorSuffix r.result.cursor = "\nNext cursor: " ++ tok := by
      rw [htok]; simp [cursorSuffix, jsTruthyStr, hne, jsShowOpt]
    rw [hcs]
    exact strContains_intro _ _ (countPrefix r.result.count).data
      ("\n" ++ renderListMemories (m :: ms)).data
      (by simp [data_append, List.append_assoc])
  · intro hcur
    rw [hh]
    have hcs : cursorSuffix r.result.cursor = "" := by simp [cursorSuffix, hcur]
    rw [hcs]
    simp

theorem list_cursor_line_witness :
    StrContains (handleToolCall "velixar_list" {}
      (.response (HttpResponse.mk true 200
        { memories := some [⟨some "x", "hi", none, none, none⟩], count := some 1,
          cursor := some "abc" }))).text ("\nNext cursor: " ++ "abc") :=
  (list_cursor_line {} (HttpResponse.mk true 200
      { memories := some [⟨some "x", "hi", none, none, none⟩], count := some 1,
        cursor := some "abc" })
    ⟨some "x", "hi", none, none, none⟩ [] rfl rfl rfl).1 "abc" rfl (by decide)

/-- C6: a successful search or list response with an empty or absent
memories collection renders exactly the fixed placeholder, which is not
the empty string. -/
theorem empty_results_placeholder (a : ToolArgs) (r : HttpResponse)
    (hok : r.ok = true) (herr : jsTruthyStr r.result.error = false)
    (hmem : r.result.memories = none ∨ r.result.memories = some []) :
    handleToolCall "velixar_search" a (.response r) = ⟨"No memories found.", false⟩ ∧
    handleToolCall "velixar_list" a (.response r) = ⟨"No memories found.", false⟩ ∧
    ("No memories found." : String) ≠ "" := by
  have hlen : jsLengthTruthy r.result.memories = false := by
    rcases hmem with h | h <;> simp [jsLengthTruthy, h]
  refine ⟨?_, ?_, by decide⟩ <;>
    exact handle_of_dispatch_ok (by simp [dispatchBody, apiRequest, hok, herr, hlen])

theorem empty_results_placeholder_witness :
    handleToolCall "velixar_search" { query := some "staging region" }
      (.response (HttpResponse.mk true 200 { memories := some [], count := some 0 })) =
    ⟨"No memories found.", false⟩ :=
  (empty_results_placeholder { query := some "staging region" }
    (HttpResponse.mk true 200 { memories := some [], count := some 0 })
    rfl rfl (Or.inr rfl)).1

/-- C7: on a non-success HTTP status, apiRequest fails with the message
`API <status>: <body prefix>`, which carries the status code and at
most 200 characters of the response body. -/
theorem apiRequest_http_failure (r : HttpResponse) (hok : r.ok = false) :
    apiRequest (.response r) = .error (httpFailMsg r) ∧
    httpFailMsg r = "API " ++ toString r.status ++ ": " ++
      jsSlice (serializeApiResult r.result) 200 ∧
    StrContains (httpFailMsg r) (toString r.status) ∧
    (jsSlice (serializeApiResult r.result) 200).length ≤ 200 := by
  refine ⟨by simp [apiRequest, hok], rfl, ?_, ?_⟩
  · exact strContains_intro _ _ "API ".data
      (": " ++ jsSlice (serializeApiResult r.result) 200).data
      (by simp [httpFailMsg, data_append, List.append_assoc])
  · show ((serializeApiResult r.result).data.take 200).length ≤ 200
    exact List.length_take_le 200 _

theorem apiRequest_http_failure_witness :
    apiRequest (.response (HttpResponse.mk false 500 { error := some "x" })) =
      .error (httpFailMsg (HttpResponse.mk false 500 { error := some "x" })) :=
  (apiRequest_http_failure (HttpResponse.mk false 500 { error := some "x" }) rfl).1

/-- C8: a zero relevance score is falsy and renders exactly as an
absent one in search results, while a tier of 0 read via the
recent-memories resource does show its tier suffix. -/
theorem score_zero_hidden_tier_zero_shown (m : Memory) :
    (m.score = some 0 →
      renderSearchMemory m = renderSearchMemory { m with score := none }) ∧
    (m.tier = some 0 →
      renderRecallMemory m = m.content ++ tagsSuffix m.tags ++ " (tier 0)") := by
  constructor
  · intro h; simp [renderSearchMemory, scoreSuffix, jsTruthyInt, h]
  · intro h
    have h0 : tierSuffix (some 0) = " (tier 0)" := by decide
    simp only [renderRecallMemory, h, h0]

theorem score_zero_hidden_tier_zero_shown_witness :
    renderSearchMemory ⟨none, "c", none, none, some 0⟩ =
      renderSearchMemory { (⟨none, "c", none, none, some 0⟩ : Memory) with score := none } ∧
    renderRecallMemory ⟨none, "c", none, some 0, none⟩ =
      "c" ++ tagsSuffix none ++ " (tier 0)" :=
  ⟨(score_zero_hidden_tier_zero_shown ⟨none, "c", none, none, some 0⟩).1 rfl,
   (score_zero_hidden_tier_zero_shown ⟨none, "c", none, some 0, none⟩).2 rfl⟩

/-- C9: with auto-recall disabled, reading the recent-memories resource
does not hit the unknown-resource path: the on-demand fetch leaves the
slot null and the read succeeds with the placeholder text, while the
resource is never advertised in resource listings. -/
theorem auto_recall_disabled_read (cfg : Config) (o : HttpOutcome)
    (hcfg : cfg.autoRecall = false) :
    fetchRecall cfg o none = none ∧
    readResource cfg none recentUri o = .ok ("No memories found.", none) ∧
    listResources cfg none = [] := by
  have hf : fetchRecall cfg o none = none := by simp [fetchRecall, hcfg]
  refine ⟨hf, ?_, by simp [listResources, hcfg]⟩
  simp [readResource, hf, renderRecallMemories, String.intercalate]

theorem auto_recall_disabled_read_witness :
    fetchRecall ⟨false⟩ (.netFailure "x") none = none ∧
    readResource ⟨false⟩ none recentUri (.netFailure "x") =
      .ok ("No memories found.", none) ∧
    listResources ⟨false⟩ none = [] :=
  auto_recall_disabled_read ⟨false⟩ (.netFailure "x") rfl

/-- C10: a supplied-but-empty content is falsy and omitted from the
update PATCH body, exactly like an omitted content; a supplied empty
tags array, being truthy, is transmitted. -/
theorem update_falsy_content_omitted (userId : String) (args : ToolArgs) :
    (args.content = some "" → (updateBody userId args).content = none) ∧
    (args.content = some "" → (updateBody userId args).content =
      (updateBody userId { args with content := none }).content) ∧
    (args.tags = some [] → (updateBody userId args).tags = some []) := by
  refine ⟨?_, ?_, ?_⟩ <;> intro h <;> simp [updateBody, h, jsTruthyStr]

theorem update_falsy_content_omitted_witness :
    (updateBody "mcp-user" { id := some "m1", content := some "" }).content = none ∧
    (updateBody "mcp-user" { id := some "m1", tags := some [] }).tags = some [] :=
  ⟨(update_falsy_content_omitted "mcp-user" _).1 rfl,
   (update_falsy_content_omitted "mcp-user" _).2.2 rfl⟩

end Velixar
